import Mathlib

/-!
Shallow embedding of the PHY 132 resistor-checker application (`app.py`).

Python floats are modelled as exact rationals (`ℚ`); the one irrational
quantity produced by the program, `sqrt(P * R)`, is modelled in `ℝ` via
`Real.sqrt`.  Python exceptions are made explicit: a function that can raise
returns `Except FailKind _`, where the `FailKind` constructors record which
runtime exception (or controlled failure) occurs.  `app.py` contains a single
`try/except`, inside `log_submission`; every other exception propagates
uncaught.
-/

/-- CONFIG constant `P_RATING_W = 1.0` (app.py line 10). -/
def P_RATING_W : ℚ := 1

/-- CONFIG constant `V_SUPPLY = 120.0` (app.py line 11). -/
def V_SUPPLY : ℚ := 120

/-- CONFIG constant `TOL_R_PCT = 5.0` (app.py line 14). -/
def TOL_R_PCT : ℚ := 5

/-- CONFIG constant `TOL_VMAX_PCT = 5.0` (app.py line 15). -/
def TOL_VMAX_PCT : ℚ := 5

/-- CONFIG constant `TOL_I120_PCT = 5.0` (app.py line 16). -/
def TOL_I120_PCT : ℚ := 5

/-- CONFIG constant `TOL_P120_PCT = 5.0` (app.py line 17). -/
def TOL_P120_PCT : ℚ := 5

/-- CONFIG constant `ALMOST_MULT = 2.0` (app.py line 20). -/
def ALMOST_MULT : ℚ := 2

/-- One entry of the resistor catalog: `{"R_nom": ..., "R_meas": ...}`
(app.py lines 32-63). -/
structure ResistorRecord where
  R_nom : ℚ
  R_meas : ℚ
deriving DecidableEq, Repr

/-- The `RESISTORS` dict of app.py lines 32-63, as an association list
(key, record); keys are the catalog indices 1..30. -/
def RESISTORS : List (ℕ × ResistorRecord) :=
  [ (1,  ⟨39, 38⟩),
    (2,  ⟨39, 381/10⟩),
    (3,  ⟨47, 459/10⟩),
    (4,  ⟨47, 457/10⟩),
    (5,  ⟨56, 548/10⟩),
    (6,  ⟨56, 553/10⟩),
    (7,  ⟨75, 741/10⟩),
    (8,  ⟨75, 725/10⟩),
    (9,  ⟨82, 80⟩),
    (10, ⟨82, 788/10⟩),
    (11, ⟨100, 97⟩),
    (12, ⟨100, 986/10⟩),
    (13, ⟨150, 1478/10⟩),
    (14, ⟨150, 1487/10⟩),
    (15, ⟨200, 1935/10⟩),
    (16, ⟨200, 1936/10⟩),
    (17, ⟨270, 267⟩),
    (18, ⟨270, 264⟩),
    (19, ⟨330, 323⟩),
    (20, ⟨330, 323⟩),
    (21, ⟨390, 376⟩),
    (22, ⟨390, 395⟩),
    (23, ⟨470, 527⟩),
    (24, ⟨470, 487⟩),
    (25, ⟨560, 544⟩),
    (26, ⟨560, 572⟩),
    (27, ⟨750, 729⟩),
    (28, ⟨750, 749⟩),
    (29, ⟨820, 828⟩),
    (30, ⟨820, 814⟩) ]

/-- Python's `RESISTORS.get(n)` (app.py line 119): `some record` when the key
is present, `none` (Python `None`) otherwise. -/
def RESISTORS_get (n : ℕ) : Option ResistorRecord :=
  RESISTORS.lookup n

/-- Failure kinds of the embedded program.  `typeError`, `zeroDivisionError`
and `mathDomainError` model Python runtime exceptions that no handler in
app.py catches; `notFound` is the controlled failure value the specification
asks for (it never occurs in the source, which has no such value). -/
inductive FailKind where
  | notFound
  | typeError
  | zeroDivisionError
  | mathDomainError
deriving DecidableEq, Repr

/-- Whether a failure kind is an uncaught Python exception (as opposed to a
controlled, reported failure).  In app.py the only `try/except` surrounds the
network call in `log_submission`, so a `TypeError`, `ZeroDivisionError` or
`ValueError` raised in lookup or arithmetic propagates and crashes the
script. -/
def FailKind.isUncaughtExn : FailKind → Bool
  | .notFound => false
  | _ => true

/-- app.py lines 119-120: `rinfo = RESISTORS.get(int(res_num))` followed by
the unguarded subscript `R_ref = rinfo["R_meas"]`.  When the key is absent,
`.get` yields `None` and the subscript raises an uncaught `TypeError`
(`'NoneType' object is not subscriptable`); no default record is ever
substituted. -/
def resolve_R_ref (n : ℕ) : Except FailKind ℚ :=
  match RESISTORS_get n with
  | some rinfo => .ok rinfo.R_meas
  | none => .error .typeError

/-- `pct_close(student_val, target_val, tol_pct)` (app.py lines 68-71):
if the target is zero, require `abs(student_val) < 1e-12`; otherwise require
`abs(student_val - target_val) <= (tol_pct / 100.0) * abs(target_val)`. -/
def pct_close (student_val target_val tol_pct : ℚ) : Bool :=
  if target_val = 0 then
    decide (|student_val| < 1 / 10 ^ 12)
  else
    decide (|student_val - target_val| ≤ tol_pct / 100 * |target_val|)

/-- `almost_within(student_val, target_val, tol_pct)` (app.py lines 73-76):
false when the target is zero; otherwise true iff the value fails `pct_close`
at `tol_pct` but passes it at `tol_pct * ALMOST_MULT`. -/
def almost_within (student_val target_val tol_pct : ℚ) : Bool :=
  if target_val = 0 then
    false
  else
    (!pct_close student_val target_val tol_pct) &&
      pct_close student_val target_val (tol_pct * ALMOST_MULT)

/-- Per-quantity verdict, the tri-state rendered by `verdict_icon`
(app.py lines 78-83): Match for the check-mark, Close for the warning sign,
Mismatch for the cross. -/
inductive Verdict where
  | Match
  | Close
  | Mismatch
deriving DecidableEq, Repr

/-- The verdict selection of `verdict_icon(ok, almost)` (app.py lines 78-83)
applied to the per-quantity flags of lines 138-146: `ok` first, then
`almost`, else Mismatch. -/
def verdict_of (student_val target_val tol_pct : ℚ) : Verdict :=
  if pct_close student_val target_val tol_pct then .Match
  else if almost_within student_val target_val tol_pct then .Close
  else .Mismatch

/-- Overall submission result, the `result_label` string of app.py
lines 161-169. -/
inductive ResultLabel where
  | Correct
  | Almost
  | Incorrect
deriving DecidableEq, Repr

/-- The aggregation of the check handler (app.py lines 136-169): per-quantity
`pct_close` and `almost_within` flags (lines 138-146), then
`all_correct = r_ok and vmax_ok and i120_ok and p120_ok`,
`any_almost = r_almost or vmax_almost or i120_almost or p120_almost`
(lines 148-149), then Correct / Almost / Incorrect (lines 161-169).
Arguments are the four (student value, expected value) pairs in the order
R, Vmax, I at 120 V, P at 120 V. -/
def result_label (s1 t1 s2 t2 s3 t3 s4 t4 : ℚ) : ResultLabel :=
  let r_ok := pct_close s1 t1 TOL_R_PCT
  let vmax_ok := pct_close s2 t2 TOL_VMAX_PCT
  let i120_ok := pct_close s3 t3 TOL_I120_PCT
  let p120_ok := pct_close s4 t4 TOL_P120_PCT
  let r_almost := almost_within s1 t1 TOL_R_PCT
  let vmax_almost := almost_within s2 t2 TOL_VMAX_PCT
  let i120_almost := almost_within s3 t3 TOL_I120_PCT
  let p120_almost := almost_within s4 t4 TOL_P120_PCT
  let all_correct := r_ok && vmax_ok && i120_ok && p120_ok
  let any_almost := r_almost || vmax_almost || i120_almost || p120_almost
  if all_correct then .Correct
  else if any_almost then .Almost
  else .Incorrect

/-- `expected_from_measured(R_meas)` (app.py lines 85-89):
`Vmax = sqrt(P_RATING_W * R_meas)`, `I120 = V_SUPPLY / R_meas`,
`P120 = (V_SUPPLY * V_SUPPLY) / R_meas`.  The Python body has no guard:
for `R_meas < 0` the `sqrt` call raises an uncaught `ValueError`
(math domain error); for `R_meas == 0` the `sqrt` succeeds and the division
`V_SUPPLY / R_meas` raises an uncaught `ZeroDivisionError`; only for
`R_meas > 0` does it return the triple. -/
noncomputable def expected_from_measured (R_meas : ℚ) : Except FailKind (ℝ × ℝ × ℝ) :=
  if R_meas < 0 then .error .mathDomainError
  else if R_meas = 0 then .error .zeroDivisionError
  else .ok (Real.sqrt ((P_RATING_W : ℝ) * (R_meas : ℝ)),
            (V_SUPPLY : ℝ) / (R_meas : ℝ),
            ((V_SUPPLY : ℝ) * (V_SUPPLY : ℝ)) / (R_meas : ℝ))

/-- The (status code, body text) pair returned by `requests.post` when it
does not raise (app.py line 93). -/
structure HttpResponse where
  status : Int
  text : String
deriving DecidableEq, Repr

/-- `log_submission(payload)` (app.py lines 91-96).  The network call is
modelled by its outcome: `.ok response` when `requests.post` returns,
`.error message` when it raises (timeout expiry, connection failure, ...).
The `try/except` converts any raised exception into the pair
`(-1, str(e))`; a returned response yields `(r.status_code, r.text)`.
The function itself never raises. -/
def log_submission (post_outcome : Except String HttpResponse) : Int × String :=
  match post_outcome with
  | .ok r => (r.status, r.text)
  | .error e => (-1, e)

/-- Timeout (seconds) passed to `requests.post` (app.py line 93). -/
def LOG_TIMEOUT_S : ℚ := 8

/-- What the check handler (app.py lines 136-197) delivers to the user:
four per-quantity verdicts and the overall result (rendered at
lines 151-169, before the logging call at line 194), plus the advisory note,
present iff the logging status is not 200 (lines 195-197). -/
structure CheckOutput where
  r_verdict : Verdict
  vmax_verdict : Verdict
  i120_verdict : Verdict
  p120_verdict : Verdict
  result : ResultLabel
  advisory : Option (Int × String)
deriving DecidableEq, Repr

/-- The check handler (app.py lines 136-197): verdicts and result are
computed from the student values and expected values alone; then
`log_submission` runs and a non-200 status produces the advisory note. -/
def check_handler (s1 t1 s2 t2 s3 t3 s4 t4 : ℚ)
    (post_outcome : Except String HttpResponse) : CheckOutput :=
  let logged := log_submission post_outcome
  { r_verdict := verdict_of s1 t1 TOL_R_PCT
    vmax_verdict := verdict_of s2 t2 TOL_VMAX_PCT
    i120_verdict := verdict_of s3 t3 TOL_I120_PCT
    p120_verdict := verdict_of s4 t4 TOL_P120_PCT
    result := result_label s1 t1 s2 t2 s3 t3 s4 t4
    advisory := if logged.1 ≠ 200 then some logged else none }

/-! ## Helper lemmas -/

/-- A quantity flagged `almost_within` always fails `pct_close`: the flags
`(ok, almost)` never are `(true, true)`. -/
theorem almost_within_imp_not_pct_close (s t tol : ℚ)
    (h : almost_within s t tol = true) : pct_close s t tol = false := by
  unfold almost_within at h
  by_cases ht : t = 0
  · simp [ht] at h
  · simp only [if_neg ht, Bool.and_eq_true, Bool.not_eq_true'] at h
    exact h.1

/-- Each quantity is in exactly one of the three verdict states, with the
corresponding flag values. -/
theorem verdict_trichotomy (s t tol : ℚ) :
    (pct_close s t tol = true ∧ almost_within s t tol = false ∧
      verdict_of s t tol = .Match) ∨
    (pct_close s t tol = false ∧ almost_within s t tol = true ∧
      verdict_of s t tol = .Close) ∨
    (pct_close s t tol = false ∧ almost_within s t tol = false ∧
      verdict_of s t tol = .Mismatch) := by
  cases hok : pct_close s t tol with
  | true =>
    left
    have hal : almost_within s t tol = false := by
      cases hal : almost_within s t tol with
      | true => rw [almost_within_imp_not_pct_close s t tol hal] at hok; cases hok
      | false => rfl
    exact ⟨rfl, hal, by simp [verdict_of, hok]⟩
  | false =>
    cases hal : almost_within s t tol with
    | true => exact Or.inr (Or.inl ⟨rfl, rfl, by simp [verdict_of, hok, hal]⟩)
    | false => exact Or.inr (Or.inr ⟨rfl, rfl, by simp [verdict_of, hok, hal]⟩)

/-! ## Claims -/

/-- C1 (counterexample): with student values (106, 130, 100, 100) against
expected values (100, 100, 100, 100) and the configured 5 % tolerances, the
Vmax quantity gets verdict Mismatch (30 % off), yet the overall result is
Almost, because the resistance quantity (6 % off) sets `any_almost`.  This
falsifies the claim that a submission containing a Mismatch verdict is never
classified Almost. -/
theorem result_label_almost_despite_mismatch :
    result_label 106 100 130 100 100 100 100 100 = ResultLabel.Almost ∧
    verdict_of 130 100 TOL_VMAX_PCT = Verdict.Mismatch := by
  constructor <;>
    norm_num [result_label, verdict_of, almost_within, pct_close, TOL_R_PCT,
      TOL_VMAX_PCT, TOL_I120_PCT, TOL_P120_PCT, ALMOST_MULT, abs_le]

/-- C1 (amended): the aggregation is total and deterministic, and for every
combination of inputs: the overall result is Correct iff all four verdicts
are Match; otherwise it is Almost iff at least one verdict is Close — even
when another quantity is Mismatch; otherwise it is Incorrect. -/
theorem result_label_characterization (s1 t1 s2 t2 s3 t3 s4 t4 : ℚ) :
    (result_label s1 t1 s2 t2 s3 t3 s4 t4 = ResultLabel.Correct ↔
      (verdict_of s1 t1 TOL_R_PCT = Verdict.Match ∧
       verdict_of s2 t2 TOL_VMAX_PCT = Verdict.Match ∧
       verdict_of s3 t3 TOL_I120_PCT = Verdict.Match ∧
       verdict_of s4 t4 TOL_P120_PCT = Verdict.Match)) ∧
    (result_label s1 t1 s2 t2 s3 t3 s4 t4 = ResultLabel.Almost ↔
      (¬ (verdict_of s1 t1 TOL_R_PCT = Verdict.Match ∧
          verdict_of s2 t2 TOL_VMAX_PCT = Verdict.Match ∧
          verdict_of s3 t3 TOL_I120_PCT = Verdict.Match ∧
          verdict_of s4 t4 TOL_P120_PCT = Verdict.Match) ∧
       (verdict_of s1 t1 TOL_R_PCT = Verdict.Close ∨
        verdict_of s2 t2 TOL_VMAX_PCT = Verdict.Close ∨
        verdict_of s3 t3 TOL_I120_PCT = Verdict.Close ∨
        verdict_of s4 t4 TOL_P120_PCT = Verdict.Close))) ∧
    (result_label s1 t1 s2 t2 s3 t3 s4 t4 = ResultLabel.Incorrect ↔
      (¬ (verdict_of s1 t1 TOL_R_PCT = Verdict.Match ∧
          verdict_of s2 t2 TOL_VMAX_PCT = Verdict.Match ∧
          verdict_of s3 t3 TOL_I120_PCT = Verdict.Match ∧
          verdict_of s4 t4 TOL_P120_PCT = Verdict.Match) ∧
       ¬ (verdict_of s1 t1 TOL_R_PCT = Verdict.Close ∨
          verdict_of s2 t2 TOL_VMAX_PCT = Verdict.Close ∨
          verdict_of s3 t3 TOL_I120_PCT = Verdict.Close ∨
          verdict_of s4 t4 TOL_P120_PCT = Verdict.Close))) := by
  rcases verdict_trichotomy s1 t1 TOL_R_PCT with ⟨h1, h1a, h1v⟩ | ⟨h1, h1a, h1v⟩ | ⟨h1, h1a, h1v⟩ <;>
  rcases verdict_trichotomy s2 t2 TOL_VMAX_PCT with ⟨h2, h2a, h2v⟩ | ⟨h2, h2a, h2v⟩ | ⟨h2, h2a, h2v⟩ <;>
  rcases verdict_trichotomy s3 t3 TOL_I120_PCT with ⟨h3, h3a, h3v⟩ | ⟨h3, h3a, h3v⟩ | ⟨h3, h3a, h3v⟩ <;>
  rcases verdict_trichotomy s4 t4 TOL_P120_PCT with ⟨h4, h4a, h4v⟩ | ⟨h4, h4a, h4v⟩ | ⟨h4, h4a, h4v⟩ <;>
  simp [result_label, h1, h1a, h1v, h2, h2a, h2v, h3, h3a, h3v, h4, h4a, h4v]

/-- C2 (counterexample): for the unknown identifier 9999 the lookup phase of
the handler does not produce a controlled `notFound` failure: `RESISTORS.get`
yields `None` and the subscript `rinfo["R_meas"]` raises an uncaught
`TypeError`.  (No grading runs — the script crashes before the form — but
the claimed `NotFound` halt does not happen.) -/
theorem resolve_R_ref_9999_crashes :
    resolve_R_ref 9999 = Except.error FailKind.typeError ∧
    resolve_R_ref 9999 ≠ Except.error FailKind.notFound ∧
    FailKind.typeError.isUncaughtExn = true := by
  refine ⟨rfl, ?_, rfl⟩
  intro h
  exact FailKind.noConfusion (Except.error.inj h)

/-- C2 (amended): for every identifier absent from the catalog, `.get`
yields `None` (no default record is substituted) and the field access makes
the script crash with an uncaught `TypeError`, so no grading happens; and
every identifier the UI admits (the `number_input` widget clamps to 1..30)
is present in the catalog, so the crash is unreachable through the form. -/
theorem resolve_R_ref_unknown_behavior :
    (∀ n : ℕ, RESISTORS_get n = none →
      resolve_R_ref n = Except.error FailKind.typeError ∧
      FailKind.typeError.isUncaughtExn = true) ∧
    (∀ n : ℕ, n < 31 → 1 ≤ n → (RESISTORS_get n).isSome = true) := by
  constructor
  · intro n h
    exact ⟨by simp [resolve_R_ref, h], rfl⟩
  · decide

/-- Witness for C2: the unknown identifier 9999 is absent from the catalog
and triggers the uncaught `TypeError`. -/
theorem resolve_R_ref_unknown_behavior_witness :
    RESISTORS_get 9999 = none ∧
    resolve_R_ref 9999 = Except.error FailKind.typeError ∧
    FailKind.typeError.isUncaughtExn = true :=
  ⟨by decide, resolve_R_ref_unknown_behavior.1 9999 (by decide)⟩

/-- C3 (counterexample): at reference resistance 0 the expected-value
computation does not reject the input in a controlled way: the division
`V_SUPPLY / R_meas` raises a `ZeroDivisionError`, which no handler in the
script catches. -/
theorem expected_from_measured_zero_raises :
    expected_from_measured 0 = Except.error FailKind.zeroDivisionError ∧
    FailKind.zeroDivisionError.isUncaughtExn = true := by
  refine ⟨?_, rfl⟩
  norm_num [expected_from_measured]

/-- C3 (amended): `expected_from_measured` has no explicit guard.  For
negative reference resistance the `sqrt` raises an uncaught math domain
error; for every non-positive reference resistance some uncaught arithmetic
exception propagates; for every positive reference resistance the function
succeeds; and every catalog record has positive measured resistance, so the
failing cases are unreachable from catalog data. -/
theorem expected_from_measured_guard_behavior :
    (∀ R : ℚ, R < 0 →
      expected_from_measured R = Except.error FailKind.mathDomainError) ∧
    (∀ R : ℚ, R ≤ 0 → ∃ e : FailKind,
      expected_from_measured R = Except.error e ∧ e.isUncaughtExn = true) ∧
    (∀ R : ℚ, 0 < R → ∃ y : ℝ × ℝ × ℝ, expected_from_measured R = Except.ok y) ∧
    (∀ p ∈ RESISTORS, 0 < p.2.R_meas) := by
  refine ⟨?_, ?_, ?_, ?_⟩
  · intro R h
    simp [expected_from_measured, h]
  · intro R h
    rcases lt_or_eq_of_le h with hlt | heq
    · exact ⟨FailKind.mathDomainError, by simp [expected_from_measured, hlt], rfl⟩
    · refine ⟨FailKind.zeroDivisionError, ?_, rfl⟩
      subst heq
      norm_num [expected_from_measured]
  · intro R h
    refine ⟨(Real.sqrt ((P_RATING_W : ℝ) * R), (V_SUPPLY : ℝ) / R,
      ((V_SUPPLY : ℝ) * (V_SUPPLY : ℝ)) / R), ?_⟩
    simp [expected_from_measured, not_lt.mpr h.le, ne_of_gt h]
  · intro p hp
    fin_cases hp <;> norm_num

/-- Witness for C3: at reference resistance -1 an uncaught math domain error
propagates, at 0 an uncaught exception propagates, and at the catalog value
38 the computation succeeds. -/
theorem expected_from_measured_guard_behavior_witness :
    ((-1 : ℚ) < 0 ∧
      expected_from_measured (-1) = Except.error FailKind.mathDomainError) ∧
    ((0 : ℚ) ≤ 0 ∧ ∃ e : FailKind,
      expected_from_measured 0 = Except.error e ∧ e.isUncaughtExn = true) ∧
    ((0 : ℚ) < 38 ∧ ∃ y : ℝ × ℝ × ℝ, expected_from_measured 38 = Except.ok y) :=
  ⟨⟨by norm_num, expected_from_measured_guard_behavior.1 (-1) (by norm_num)⟩,
   ⟨le_refl 0, expected_from_measured_guard_behavior.2.1 0 (le_refl 0)⟩,
   ⟨by norm_num, expected_from_measured_guard_behavior.2.2.1 38 (by norm_num)⟩⟩

/-- C4: for every student value, nonzero target and positive tolerance,
`pct_close` and `almost_within` are mutually exclusive, and `almost_within`
is true iff the value fails `pct_close` at the tolerance but passes it at
the tolerance times `ALMOST_MULT`. -/
theorem pct_close_almost_within_exclusive (s t tol : ℚ) (ht : t ≠ 0)
    (htol : 0 < tol) :
    (¬ (pct_close s t tol = true ∧ almost_within s t tol = true)) ∧
    (almost_within s t tol = true ↔
      (pct_close s t tol = false ∧ pct_close s t (tol * ALMOST_MULT) = true)) := by
  constructor
  · rintro ⟨hok, hal⟩
    rw [almost_within_imp_not_pct_close s t tol hal] at hok
    cases hok
  · simp only [almost_within, if_neg ht, Bool.and_eq_true, Bool.not_eq_true']

/-- Witness for C4 at student value 107, target 100, tolerance 5 %: the
value is in the almost band (7 % off, inside 10 %). -/
theorem pct_close_almost_within_exclusive_witness :
    ((100 : ℚ) ≠ 0 ∧ (0 : ℚ) < 5) ∧
    ((¬ (pct_close 107 100 5 = true ∧ almost_within 107 100 5 = true)) ∧
     (almost_within 107 100 5 = true ↔
       (pct_close 107 100 5 = false ∧
        pct_close 107 100 (5 * ALMOST_MULT) = true))) :=
  ⟨⟨by norm_num, by norm_num⟩,
   pct_close_almost_within_exclusive 107 100 5 (by norm_num) (by norm_num)⟩

/-- C5: against a zero target, `almost_within` is always false, and
`pct_close` holds iff the absolute student value is strictly below the fixed
epsilon `1e-12`, independently of the tolerance. -/
theorem zero_target_behavior (s tol : ℚ) :
    almost_within s 0 tol = false ∧
    (pct_close s 0 tol = true ↔ |s| < 1 / 10 ^ 12) := by
  constructor
  · simp [almost_within]
  · simp [pct_close]

/-- C6: for every positive reference resistance, `expected_from_measured`
returns exactly the triple `(sqrt(P_RATING_W * R), V_SUPPLY / R,
V_SUPPLY * V_SUPPLY / R)`; in particular at R = 1000 Ω it yields a maximum
safe voltage within 10^-4 of 31.6228 V, a current of exactly 0.12 A and a
power of exactly 14.4 W. -/
theorem expected_from_measured_formulas :
    (∀ R : ℚ, 0 < R →
      expected_from_measured R =
        Except.ok (Real.sqrt ((P_RATING_W : ℝ) * (R : ℝ)),
          (V_SUPPLY : ℝ) / (R : ℝ),
          ((V_SUPPLY : ℝ) * (V_SUPPLY : ℝ)) / (R : ℝ))) ∧
    (∃ v : ℝ, expected_from_measured 1000 = Except.ok (v, 12 / 100, 72 / 5) ∧
      |v - 31.6228| < 1 / 10 ^ 4) := by
  have hform : ∀ R : ℚ, 0 < R →
      expected_from_measured R =
        Except.ok (Real.sqrt ((P_RATING_W : ℝ) * (R : ℝ)),
          (V_SUPPLY : ℝ) / (R : ℝ),
          ((V_SUPPLY : ℝ) * (V_SUPPLY : ℝ)) / (R : ℝ)) := by
    intro R hR
    simp [expected_from_measured, not_lt.mpr hR.le, ne_of_gt hR]
  refine ⟨hform, Real.sqrt 1000, ?_, ?_⟩
  · rw [hform 1000 (by norm_num)]
    norm_num [P_RATING_W, V_SUPPLY]
  · have hlt : Real.sqrt 1000 < 31.6228 :=
      (Real.sqrt_lt' (by norm_num)).mpr (by norm_num)
    have hgt : (31.6227 : ℝ) < Real.sqrt 1000 :=
      (Real.lt_sqrt (by norm_num)).mpr (by norm_num)
    rw [abs_lt]
    constructor <;> [linarith; linarith]

/-- Witness for C6 at the catalog-like value R = 2 Ω. -/
theorem expected_from_measured_formulas_witness :
    (0 : ℚ) < 2 ∧
    expected_from_measured 2 =
      Except.ok (Real.sqrt ((P_RATING_W : ℝ) * ((2 : ℚ) : ℝ)),
        (V_SUPPLY : ℝ) / ((2 : ℚ) : ℝ),
        ((V_SUPPLY : ℝ) * (V_SUPPLY : ℝ)) / ((2 : ℚ) : ℝ)) :=
  ⟨by norm_num, expected_from_measured_formulas.1 2 (by norm_num)⟩

/-- C7: for every nonzero target, `pct_close` holds iff the absolute
difference is at most `tol_pct / 100` times the absolute target. -/
theorem pct_close_iff (s t tol : ℚ) (ht : t ≠ 0) :
    pct_close s t tol = true ↔ |s - t| ≤ tol / 100 * |t| := by
  simp [pct_close, ht]

/-- Witness for C7 at student value 105, target 100, tolerance 5 %: the
boundary case, 5 % off, is within tolerance. -/
theorem pct_close_iff_witness :
    (100 : ℚ) ≠ 0 ∧
    (pct_close 105 100 5 = true ↔
      |(105 : ℚ) - 100| ≤ 5 / 100 * |(100 : ℚ)|) :=
  ⟨by norm_num, pct_close_iff 105 100 5 (by norm_num)⟩

/-- C8: `pct_close` is monotone in the tolerance: enlarging the tolerance
never un-matches a value. -/
theorem pct_close_monotone (s t tol1 tol2 : ℚ) (h : tol1 ≤ tol2)
    (hc : pct_close s t tol1 = true) : pct_close s t tol2 = true := by
  by_cases ht : t = 0
  · simp only [pct_close, if_pos ht, decide_eq_true_eq] at hc ⊢
    exact hc
  · simp only [pct_close, if_neg ht, decide_eq_true_eq] at hc ⊢
    refine hc.trans ?_
    exact mul_le_mul_of_nonneg_right (by linarith) (abs_nonneg t)

/-- Witness for C8: 103 matches 100 at 5 % tolerance, hence also at 7 %. -/
theorem pct_close_monotone_witness :
    ((5 : ℚ) ≤ 7 ∧ pct_close 103 100 5 = true) ∧ pct_close 103 100 7 = true :=
  ⟨⟨by norm_num, by norm_num [pct_close, abs_le]⟩,
   pct_close_monotone 103 100 5 7 (by norm_num) (by norm_num [pct_close, abs_le])⟩

/-- C9: the logging hand-off never prevents delivery of the locally computed
verdict.  The four per-quantity verdicts and the overall result of the check
handler do not depend on the outcome of the network call; `log_submission`
is a total function that converts a raised exception into the failure pair
`(-1, message)` instead of propagating it; and the advisory note is shown
exactly when the logging status differs from 200, leaving the verdicts in
the output in every case. -/
theorem logging_never_blocks_verdict :
    ∀ (s1 t1 s2 t2 s3 t3 s4 t4 : ℚ)
      (post post' : Except String HttpResponse),
      ((check_handler s1 t1 s2 t2 s3 t3 s4 t4 post).r_verdict =
        (check_handler s1 t1 s2 t2 s3 t3 s4 t4 post').r_verdict ∧
       (check_handler s1 t1 s2 t2 s3 t3 s4 t4 post).vmax_verdict =
        (check_handler s1 t1 s2 t2 s3 t3 s4 t4 post').vmax_verdict ∧
       (check_handler s1 t1 s2 t2 s3 t3 s4 t4 post).i120_verdict =
        (check_handler s1 t1 s2 t2 s3 t3 s4 t4 post').i120_verdict ∧
       (check_handler s1 t1 s2 t2 s3 t3 s4 t4 post).p120_verdict =
        (check_handler s1 t1 s2 t2 s3 t3 s4 t4 post').p120_verdict ∧
       (check_handler s1 t1 s2 t2 s3 t3 s4 t4 post).result =
        (check_handler s1 t1 s2 t2 s3 t3 s4 t4 post').result) ∧
      (∀ e : String, log_submission (Except.error e) = (-1, e)) ∧
      ((check_handler s1 t1 s2 t2 s3 t3 s4 t4 post).advisory = none ↔
        (log_submission post).1 = 200) := by
  intro s1 t1 s2 t2 s3 t3 s4 t4 post post'
  refine ⟨⟨rfl, rfl, rfl, rfl, rfl⟩, fun e => rfl, ?_⟩
  by_cases h : (log_submission post).1 = 200 <;> simp [check_handler, h]

/-- C10: an exactly correct answer always passes the tolerance check, for
every target (zero included) and every nonnegative tolerance. -/
theorem pct_close_exact_match (t tol : ℚ) (h : 0 ≤ tol) :
    pct_close t t tol = true := by
  by_cases ht : t = 0
  · subst ht
    norm_num [pct_close]
  · simp only [pct_close, if_neg ht, decide_eq_true_eq, sub_self, abs_zero]
    positivity

/-- Witness for C10 at the zero target and zero tolerance. -/
theorem pct_close_exact_match_witness :
    (0 : ℚ) ≤ 0 ∧ pct_close 0 0 0 = true :=
  ⟨le_refl 0, pct_close_exact_match 0 0 (le_refl 0)⟩
